import Mathlib

/-!
Shallow embedding of the fluid-simulation subsystem of the
energy-optimizer frontend (the `FluidBackground` component).

GPU textures are modelled as functions from UV coordinates (pairs of
rationals) to rational sample values; the WebGL framebuffer objects are
modelled as records carrying an allocation id, dimensions, texel sizes
and the current texture content.  Shader passes become pure functions on
such fields.  JavaScript numbers are modelled as rationals; the
platform's `Math.sin` and GLSL `sqrt` appear as explicit function
parameters where they occur.
-/

set_option autoImplicit false

namespace Fluid

/-- UV coordinate / 2-component sample, as in GLSL `vec2`. -/
abbrev Vec2 : Type := ℚ × ℚ

/-- 4-component sample, as in GLSL `vec4` (dye texture RGBA). -/
abbrev Vec4 : Type := ℚ × ℚ × ℚ × ℚ

/-- Scalar field: one channel sampled over UV space. -/
abbrev SField : Type := Vec2 → ℚ

/-- Vector field: two channels sampled over UV space. -/
abbrev VField : Type := Vec2 → Vec2

/-- Simulation configuration, the `CONFIG` literal of the source
(`BACK_COLOR` is a plain display constant and is carried as its three
channels). -/
structure Config where
  SIM_RESOLUTION : ℚ
  DYE_RESOLUTION : ℚ
  DENSITY_DISSIPATION : ℚ
  VELOCITY_DISSIPATION : ℚ
  PRESSURE : ℚ
  PRESSURE_ITERATIONS : ℕ
  CURL : ℚ
  SPLAT_RADIUS : ℚ
  SPLAT_FORCE : ℚ
  SHADING : Bool
  COLOR_UPDATE_SPEED : ℚ
  TRANSPARENT : Bool
  deriving Repr, DecidableEq

/-- The `CONFIG` constant of the source. -/
def CONFIG : Config where
  SIM_RESOLUTION := 128
  DYE_RESOLUTION := 1440
  DENSITY_DISSIPATION := 0.99
  VELOCITY_DISSIPATION := 0.99
  PRESSURE := 0.1
  PRESSURE_ITERATIONS := 20
  CURL := 5
  SPLAT_RADIUS := 1.5
  SPLAT_FORCE := 200
  SHADING := true
  COLOR_UPDATE_SPEED := 0.1
  TRANSPARENT := true

/-- The capability downgrade applied right after context creation:
`if (!ext.supportLinearFiltering) { config.DYE_RESOLUTION = 256;
config.SHADING = false; }` on a fresh copy of `CONFIG`. -/
def resolveConfig (supportLinearFiltering : Bool) : Config :=
  if supportLinearFiltering then CONFIG
  else { CONFIG with DYE_RESOLUTION := 256, SHADING := false }

/-- The keyword list built by `updateKeywords`:
`if (config.SHADING) displayKeywords.push('SHADING')`. -/
def displayKeywords (cfg : Config) : List String :=
  if cfg.SHADING then ["SHADING"] else []

/-- Render target (`FBO` in the source): one texture plus one
framebuffer.  `id` is the allocation order of the underlying GPU
objects (fresh ids model fresh `gl.createTexture`/`createFramebuffer`
calls), `content` the texture's sampled value over UV space. -/
structure FBO where
  id : ℕ
  width : ℚ
  height : ℚ
  texelSizeX : ℚ
  texelSizeY : ℚ
  content : SField

/-- Double render target (`DoubleFBO` in the source): read/write pair
plus cached dimensions and texel sizes. -/
structure DoubleFBO where
  width : ℚ
  height : ℚ
  texelSizeX : ℚ
  texelSizeY : ℚ
  read : FBO
  write : FBO

/-- `createFBO(w, h, ...)`: allocates texture and framebuffer (one fresh
id), clears the target (clear color is black), and derives
`texelSizeX = 1/w`, `texelSizeY = 1/h`.  Returns the target and the next
free allocation id. -/
def createFBO (n : ℕ) (w h : ℚ) : FBO × ℕ :=
  ({ id := n
     width := w
     height := h
     texelSizeX := 1 / w
     texelSizeY := 1 / h
     content := fun _ => 0 }, n + 1)

/-- `createDoubleFBO(w, h, ...)`: two independent targets of identical
parameters, cached dimensions and texel sizes taken from the first. -/
def createDoubleFBO (n : ℕ) (w h : ℚ) : DoubleFBO × ℕ :=
  let p1 := createFBO n w h
  let p2 := createFBO p1.2 w h
  ({ width := w
     height := h
     texelSizeX := p1.1.texelSizeX
     texelSizeY := p1.1.texelSizeY
     read := p1.1
     write := p2.1 }, p2.2)

/-- `swap()` of a double target: exchanges which member is `read` and
which is `write`; no allocation, no content copy. -/
def DoubleFBO.swap (d : DoubleFBO) : DoubleFBO :=
  { d with read := d.write, write := d.read }

/-- `resizeFBO(target, w, h, ...)`: creates a fresh target at the new
size and blits the old content into it through the copy shader
(`gl_FragColor = texture2D(uTexture, vUv)`), so the new content as a UV
function equals the old one. -/
def resizeFBO (n : ℕ) (t : FBO) (w h : ℚ) : FBO × ℕ :=
  let p := createFBO n w h
  ({ p.1 with content := t.content }, p.2)

/-- `resizeDoubleFBO(target, w, h, ...)`: returns the target untouched
when the dimensions already match; otherwise resizes `read` with a
content-preserving copy, allocates a fresh `write`, and re-derives the
cached dimensions and texel sizes. -/
def resizeDoubleFBO (n : ℕ) (t : DoubleFBO) (w h : ℚ) : DoubleFBO × ℕ :=
  if t.width = w ∧ t.height = h then (t, n)
  else
    let pr := resizeFBO n t.read w h
    let pw := createFBO pr.2 w h
    ({ t with
        read := pr.1
        write := pw.1
        width := w
        height := h
        texelSizeX := 1 / w
        texelSizeY := 1 / h }, pw.2)

/-- Texel-size invariant of one render target: the stored texel sizes
are the reciprocals of the stored dimensions. -/
def FBOok (f : FBO) : Prop :=
  f.texelSizeX = 1 / f.width ∧ f.texelSizeY = 1 / f.height

/-- Texel-size invariant of a double render target: cached values and
both members satisfy the reciprocal relation. -/
def DoubleFBOok (d : DoubleFBO) : Prop :=
  d.texelSizeX = 1 / d.width ∧ d.texelSizeY = 1 / d.height ∧
    FBOok d.read ∧ FBOok d.write

instance (f : FBO) : Decidable (FBOok f) := by
  unfold FBOok; infer_instance

instance (d : DoubleFBO) : Decidable (DoubleFBOok d) := by
  unfold DoubleFBOok; infer_instance

/-- `calcDeltaTime()`: wall-clock delta in seconds since the previous
tick, clamped by `dt = Math.min(dt, 0.016666)`.  Timestamps are in
milliseconds, as `Date.now()` returns. -/
def calcDeltaTime (now lastUpdateTime : ℚ) : ℚ :=
  min ((now - lastUpdateTime) / 1000) 0.016666

/-- The `curlShader` fragment shader at one UV coordinate, with texel
size `(tx, ty)`: central difference
`0.5 * (R - L - T + B)` of the velocity field's cross components. -/
def curlPass (tx ty : ℚ) (V : VField) : SField := fun uv =>
  let L := (V (uv.1 - tx, uv.2)).2
  let R := (V (uv.1 + tx, uv.2)).2
  let T := (V (uv.1, uv.2 + ty)).1
  let B := (V (uv.1, uv.2 - ty)).1
  0.5 * (R - L - T + B)

/-- Raw confinement force of the `vorticityShader`:
`0.5 * vec2(abs(T) - abs(B), abs(R) - abs(L))` over the curl field's
neighbours. -/
def vortForce (tx ty : ℚ) (Cf : SField) (uv : Vec2) : Vec2 :=
  (0.5 * (|Cf (uv.1, uv.2 + ty)| - |Cf (uv.1, uv.2 - ty)|),
   0.5 * (|Cf (uv.1 + tx, uv.2)| - |Cf (uv.1 - tx, uv.2)|))

/-- The `vorticityShader` at one UV coordinate.  `sqrtQ` is the GLSL
`sqrt` used by `length` (applied to the squared norm), a parameter of
the model.  The shader normalizes the raw force by
`length(force) + 0.0001`, scales it by `curl * C`, flips its y sign,
integrates it over `dt` onto the velocity, and clamps each component by
`min(max(velocity, -1000.0), 1000.0)`. -/
def vorticityPass (sqrtQ : ℚ → ℚ) (curlStrength dt tx ty : ℚ)
    (V : VField) (Cf : SField) : VField := fun uv =>
  let C := Cf uv
  let f0 := vortForce tx ty Cf uv
  let len := sqrtQ (f0.1 ^ 2 + f0.2 ^ 2)
  let f1 : Vec2 := (f0.1 / (len + 0.0001), f0.2 / (len + 0.0001))
  let f2 : Vec2 := (f1.1 * (curlStrength * C), f1.2 * (curlStrength * C))
  let f3 : Vec2 := (f2.1, f2.2 * (-1))
  let v := V uv
  let v1 : Vec2 := (v.1 + f3.1 * dt, v.2 + f3.2 * dt)
  (min (max v1.1 (-1000)) 1000, min (max v1.2 (-1000)) 1000)

/-- The `divergenceShader` at one UV coordinate: central difference of
the velocity with free-slip boundaries (an out-of-domain neighbour is
replaced by the negated centre component). -/
def divergencePass (tx ty : ℚ) (V : VField) : SField := fun uv =>
  let vL : Vec2 := (uv.1 - tx, uv.2)
  let vR : Vec2 := (uv.1 + tx, uv.2)
  let vT : Vec2 := (uv.1, uv.2 + ty)
  let vB : Vec2 := (uv.1, uv.2 - ty)
  let C := V uv
  let L := if vL.1 < 0 then -C.1 else (V vL).1
  let R := if vR.1 > 1 then -C.1 else (V vR).1
  let T := if vT.2 > 1 then -C.2 else (V vT).2
  let B := if vB.2 < 0 then -C.2 else (V vB).2
  0.5 * (R - L + T - B)

/-- The `clearShader` at one UV coordinate:
`gl_FragColor = value * texture2D(uTexture, vUv)`; used by `step` with
`value = config.PRESSURE` as the pressure decay. -/
def clearPass (value : ℚ) (P : SField) : SField := fun uv =>
  value * P uv

/-- One Jacobi relaxation of the `pressureShader`:
`pressure = (L + R + B + T - divergence) * 0.25`. -/
def jacobiPass (tx ty : ℚ) (P D : SField) : SField := fun uv =>
  let L := P (uv.1 - tx, uv.2)
  let R := P (uv.1 + tx, uv.2)
  let T := P (uv.1, uv.2 + ty)
  let B := P (uv.1, uv.2 - ty)
  (L + R + B + T - D uv) * 0.25

/-- The pressure loop of `step`: `PRESSURE_ITERATIONS` Jacobi
relaxations with read/write swapped after each. -/
def jacobiIter (tx ty : ℚ) (D : SField) : ℕ → SField → SField
  | 0, P => P
  | n + 1, P => jacobiIter tx ty D n (jacobiPass tx ty P D)

/-- The `gradientSubtractShader` at one UV coordinate:
`velocity.xy -= vec2(R - L, T - B)` over the pressure neighbours. -/
def gradientSubtractPass (tx ty : ℚ) (P : SField) (V : VField) :
    VField := fun uv =>
  let L := P (uv.1 - tx, uv.2)
  let R := P (uv.1 + tx, uv.2)
  let T := P (uv.1, uv.2 + ty)
  let B := P (uv.1, uv.2 - ty)
  let v := V uv
  (v.1 - (R - L), v.2 - (T - B))

/-- The `advectionShader` (linear-filtering branch, the one compiled
when `supportLinearFiltering` holds) applied to the velocity field:
backward trace `coord = vUv - dt * velocity * texelSize`, sample the
source there, divide by the decay `1 + dissipation * dt`. -/
def advectV (tx ty dt dissipation : ℚ) (V S : VField) : VField :=
  fun uv =>
  let coord : Vec2 := (uv.1 - dt * (V uv).1 * tx, uv.2 - dt * (V uv).2 * ty)
  let result := S coord
  let decay := 1 + dissipation * dt
  (result.1 / decay, result.2 / decay)

/-- The same advection shader applied to the four-channel dye field
(the `texelSize` uniform still holds the velocity texel size when the
dye pass runs). -/
def advectD (tx ty dt dissipation : ℚ) (V : VField) (S : Vec2 → Vec4) :
    Vec2 → Vec4 := fun uv =>
  let coord : Vec2 := (uv.1 - dt * (V uv).1 * tx, uv.2 - dt * (V uv).2 * ty)
  let r := S coord
  let decay := 1 + dissipation * dt
  (r.1 / decay, r.2.1 / decay, r.2.2.1 / decay, r.2.2.2 / decay)

/-- The simulation fields at one instant: the contents of the
velocity/dye/pressure double targets (read side) and the divergence and
curl single targets. -/
structure SimState where
  velocity : VField
  dye : Vec2 → Vec4
  pressure : SField
  divergence : SField
  curl : SField

/-- Freshly initialized fields: every target is cleared to zero by
`createFBO`/`createDoubleFBO`. -/
def zeroState : SimState where
  velocity := fun _ => (0, 0)
  dye := fun _ => (0, 0, 0, 0)
  pressure := fun _ => 0
  divergence := fun _ => 0
  curl := fun _ => 0

/-- One `step(dt)` of the solver: curl, vorticity confinement,
divergence, pressure decay (`clearProgram` with `config.PRESSURE`),
`PRESSURE_ITERATIONS` Jacobi relaxations, gradient subtraction,
velocity self-advection, dye advection — in the fixed order of the
source, each pass followed by the corresponding swap.  `(tx, ty)` is
the velocity texel size; the dye texel size feeds only the
manual-filtering shader variant, absent on this linear-filtering
branch. -/
def step (sqrtQ : ℚ → ℚ) (cfg : Config) (tx ty dt : ℚ)
    (s : SimState) : SimState :=
  let curl1 := curlPass tx ty s.velocity
  let vel1 := vorticityPass sqrtQ cfg.CURL dt tx ty s.velocity curl1
  let div1 := divergencePass tx ty vel1
  let p0 := clearPass cfg.PRESSURE s.pressure
  let p1 := jacobiIter tx ty div1 cfg.PRESSURE_ITERATIONS p0
  let vel2 := gradientSubtractPass tx ty p1 vel1
  let vel3 := advectV tx ty dt cfg.VELOCITY_DISSIPATION vel2 vel2
  let dye1 := advectD tx ty dt cfg.DENSITY_DISSIPATION vel3 s.dye
  { velocity := vel3
    dye := dye1
    pressure := p1
    divergence := div1
    curl := curl1 }

/-- Wrap of a JavaScript number into a signed 32-bit integer, the
effect of `|0` and of the `<<` operand conversion. -/
def toInt32 (n : ℤ) : ℤ :=
  (n + 2 ^ 31) % 2 ^ 32 - 2 ^ 31

/-- `hashCode(s)`: the JS loop
`hash = (hash << 5) - hash + s.charCodeAt(i); hash |= 0`.
`hash << 5` converts its operand to int32 and wraps the shifted result;
the sum stays exact in a double and `|= 0` wraps it back to int32.
Characters are taken as their code points (the keyword strings of this
program are ASCII, where code points and UTF-16 units agree). -/
def hashCode (s : String) : ℤ :=
  if s.length = 0 then 0
  else s.data.foldl (fun hash c => toInt32 (toInt32 (hash * 32) - hash + c.toNat)) 0

/-- The hash `Material.setKeywords` computes over a keyword list:
plain JS number addition of the per-string hashes (exact, since each is
an int32 and the list is short). -/
def hashKeywords (ks : List String) : ℤ :=
  ks.foldl (fun hash k => hash + hashCode k) 0

/-- The mutable state of a `Material`: the program cache keyed by
keyword hash, the active program, and which program's uniform table is
currently memoized (`none` models the initial empty table).  Programs
are identified by their allocation order; `compileCount` counts
compile-and-link operations, `nextProgId` is the next fresh program
id. -/
structure Material where
  programs : ℤ → Option ℕ
  activeProgram : Option ℕ
  uniformsFor : Option ℕ
  compileCount : ℕ
  nextProgId : ℕ

/-- A freshly constructed `Material`: empty program cache, no active
program, empty uniform table. -/
def Material.init : Material where
  programs := fun _ => none
  activeProgram := none
  uniformsFor := none
  compileCount := 0
  nextProgId := 0

/-- `Material.setKeywords(keywords)`: sums the keyword hashes, looks the
program up in the cache, compiles and links a fresh one on a miss and
caches it; then, if the resolved program is already the active one,
returns without touching anything else, otherwise re-reads the uniform
table from the resolved program and makes it active. -/
def setKeywords (m : Material) (ks : List String) : Material :=
  let hash := hashKeywords ks
  match m.programs hash with
  | some p =>
    if m.activeProgram = some p then m
    else { m with uniformsFor := some p, activeProgram := some p }
  | none =>
    let p := m.nextProgId
    let m1 : Material :=
      { m with
          programs := fun h2 => if h2 = hash then some p else m.programs h2
          compileCount := m.compileCount + 1
          nextProgId := m.nextProgId + 1 }
    if m1.activeProgram = some p then m1
    else { m1 with uniformsFor := some p, activeProgram := some p }

/-- Color triple, the `RGB` interface of the source. -/
structure RGB where
  r : ℚ
  g : ℚ
  b : ℚ
  deriving Repr, DecidableEq

/-- `HSVtoRGB(h, s, v)` of the source: `i = Math.floor(h * 6)`, the
fractions `f, p, q, t`, then a switch on `i % 6` (JS `%` truncates
toward zero, `Int.tmod`).  On the `default` branch the source leaves
`r, g, b` undefined; the model returns `none` there. -/
def HSVtoRGB (h s v : ℚ) : Option RGB :=
  let i : ℤ := ⌊h * 6⌋
  let f : ℚ := h * 6 - i
  let p := v * (1 - s)
  let q := v * (1 - f * s)
  let t := v * (1 - (1 - f) * s)
  let m := Int.tmod i 6
  if m = 0 then some ⟨v, t, p⟩
  else if m = 1 then some ⟨q, v, p⟩
  else if m = 2 then some ⟨p, v, t⟩
  else if m = 3 then some ⟨p, q, v⟩
  else if m = 4 then some ⟨t, p, v⟩
  else if m = 5 then some ⟨v, p, q⟩
  else none

/-- The timer update at the top of `generateColor`:
`colorTimer += 0.005 * config.COLOR_UPDATE_SPEED;
if (colorTimer > 1) colorTimer -= 1`. -/
def stepColorTimer (cfg : Config) (colorTimer : ℚ) : ℚ :=
  let t1 := colorTimer + 0.005 * cfg.COLOR_UPDATE_SPEED
  if t1 > 1 then t1 - 1 else t1

/-- The hue computed by `generateColor` from the updated timer:
`0.55 + (Math.sin(colorTimer * Math.PI * 2) * 0.1)`.  `sinQ` models the
platform's `Math.sin` and `piQ` its `Math.PI` constant. -/
def hueOf (sinQ : ℚ → ℚ) (piQ timer : ℚ) : ℚ :=
  0.55 + sinQ (timer * piQ * 2) * 0.1

/-- `generateColor()`: advances the color timer, computes the hue,
converts `HSV(h, 0.4, 0.2)` to RGB and darkens each channel by `0.15`.
Returns the new timer value and the color. -/
def generateColor (sinQ : ℚ → ℚ) (piQ : ℚ) (cfg : Config)
    (colorTimer : ℚ) : ℚ × Option RGB :=
  let t2 := stepColorTimer cfg colorTimer
  let h := hueOf sinQ piQ t2
  let c := HSVtoRGB h 0.4 0.2
  (t2, c.map fun x => ⟨x.r * 0.15, x.g * 0.15, x.b * 0.15⟩)

end Fluid

namespace Fluid

/-- C2: for every render target, after `createFBO` (also inside
`createDoubleFBO`) and after every `resizeFBO`/`resizeDoubleFBO`, the
stored texel sizes are exactly the reciprocals of the stored
dimensions; the texel size is never set independently of the
dimensions. -/
theorem texel_size_reciprocal :
    (∀ (n : ℕ) (w h : ℚ), FBOok (createFBO n w h).1) ∧
    (∀ (n : ℕ) (w h : ℚ), DoubleFBOok (createDoubleFBO n w h).1) ∧
    (∀ (n : ℕ) (t : FBO) (w h : ℚ), FBOok (resizeFBO n t w h).1) ∧
    (∀ (n : ℕ) (d : DoubleFBO) (w h : ℚ),
      DoubleFBOok d → DoubleFBOok (resizeDoubleFBO n d w h).1) := by
  refine ⟨fun n w h => ⟨rfl, rfl⟩, fun n w h => ⟨rfl, rfl, ⟨rfl, rfl⟩, ⟨rfl, rfl⟩⟩,
    fun n t w h => ⟨rfl, rfl⟩, fun n d w h hd => ?_⟩
  unfold resizeDoubleFBO
  split
  · exact hd
  · exact ⟨rfl, rfl, ⟨rfl, rfl⟩, ⟨rfl, rfl⟩⟩

/-- Witness for C2 at a concrete double target and resize. -/
theorem texel_size_reciprocal_witness :
    DoubleFBOok (createDoubleFBO 0 4 2).1 ∧
    DoubleFBOok (resizeDoubleFBO 2 (createDoubleFBO 0 4 2).1 8 6).1 :=
  ⟨by simp [DoubleFBOok, FBOok, createDoubleFBO, createFBO],
   texel_size_reciprocal.2.2.2 2 (createDoubleFBO 0 4 2).1 8 6
     (by simp [DoubleFBOok, FBOok, createDoubleFBO, createFBO])⟩

/-- C3: the `dt` computed by `calcDeltaTime` (and passed on to the one
solver step of the tick) never exceeds 1/60 second, however large the
wall-clock gap between the two tick timestamps is. -/
theorem calcDeltaTime_le_sixtieth (now lastUpdateTime : ℚ) :
    calcDeltaTime now lastUpdateTime ≤ 1 / 60 := by
  unfold calcDeltaTime
  exact le_trans (min_le_right _ _) (by norm_num)

/-- C5: when linear filtering on float textures is unsupported, the
resolved configuration holds the downgraded dye resolution 256 and a
cleared shading flag, and the display keyword list built from it does
not contain the SHADING keyword. -/
theorem downgrade_no_shading :
    (resolveConfig false).DYE_RESOLUTION = 256 ∧
    (resolveConfig false).SHADING = false ∧
    "SHADING" ∉ displayKeywords (resolveConfig false) := by
  refine ⟨by decide, by decide, ?_⟩
  simp [displayKeywords, resolveConfig]

/-- C6: `swap` applied twice to a double render target is the identity,
and one `swap` exchanges the read and write members exactly (same
underlying targets, ids included; cached dimensions, texel sizes and
contents untouched — nothing is copied or reallocated). -/
theorem swap_swap_id (d : DoubleFBO) :
    d.swap.swap = d ∧
    d.swap.read = d.write ∧ d.swap.write = d.read ∧
    d.swap.width = d.width ∧ d.swap.height = d.height ∧
    d.swap.texelSizeX = d.texelSizeX ∧ d.swap.texelSizeY = d.texelSizeY :=
  ⟨rfl, rfl, rfl, rfl, rfl, rfl, rfl⟩

/-- C7: `resizeDoubleFBO` with the current dimensions returns the
identical target and allocates nothing (the allocation counter is
unchanged); with different dimensions it replaces `read` by a
content-preserving resized copy, `write` by a freshly created cleared
target (two fresh allocations), and re-derives the cached dimensions
and texel sizes. -/
theorem resizeDoubleFBO_spec (n : ℕ) (d : DoubleFBO) (w h : ℚ) :
    (d.width = w ∧ d.height = h → resizeDoubleFBO n d w h = (d, n)) ∧
    (¬(d.width = w ∧ d.height = h) →
      (resizeDoubleFBO n d w h).1.read.content = d.read.content ∧
      (resizeDoubleFBO n d w h).1.read.id = n ∧
      (resizeDoubleFBO n d w h).1.write.id = n + 1 ∧
      (resizeDoubleFBO n d w h).1.write.content = (fun _ => 0) ∧
      (resizeDoubleFBO n d w h).2 = n + 2 ∧
      (resizeDoubleFBO n d w h).1.width = w ∧
      (resizeDoubleFBO n d w h).1.height = h ∧
      (resizeDoubleFBO n d w h).1.texelSizeX = 1 / w ∧
      (resizeDoubleFBO n d w h).1.texelSizeY = 1 / h) := by
  constructor
  · intro hd
    simp [resizeDoubleFBO, hd]
  · intro hd
    simp [resizeDoubleFBO, hd, resizeFBO, createFBO]

/-- Witness for C7: both branches at a concrete double target. -/
theorem resizeDoubleFBO_spec_witness :
    resizeDoubleFBO 5 (createDoubleFBO 0 2 2).1 2 2 = ((createDoubleFBO 0 2 2).1, 5) ∧
    ((resizeDoubleFBO 5 (createDoubleFBO 0 2 2).1 3 4).1.read.content
        = (createDoubleFBO 0 2 2).1.read.content ∧
      (resizeDoubleFBO 5 (createDoubleFBO 0 2 2).1 3 4).1.read.id = 5 ∧
      (resizeDoubleFBO 5 (createDoubleFBO 0 2 2).1 3 4).1.write.id = 6 ∧
      (resizeDoubleFBO 5 (createDoubleFBO 0 2 2).1 3 4).1.write.content = (fun _ => 0) ∧
      (resizeDoubleFBO 5 (createDoubleFBO 0 2 2).1 3 4).2 = 7 ∧
      (resizeDoubleFBO 5 (createDoubleFBO 0 2 2).1 3 4).1.width = 3 ∧
      (resizeDoubleFBO 5 (createDoubleFBO 0 2 2).1 3 4).1.height = 4 ∧
      (resizeDoubleFBO 5 (createDoubleFBO 0 2 2).1 3 4).1.texelSizeX = 1 / 3 ∧
      (resizeDoubleFBO 5 (createDoubleFBO 0 2 2).1 3 4).1.texelSizeY = 1 / 4) :=
  ⟨(resizeDoubleFBO_spec 5 (createDoubleFBO 0 2 2).1 2 2).1
      (by norm_num [createDoubleFBO, createFBO]),
   (resizeDoubleFBO_spec 5 (createDoubleFBO 0 2 2).1 3 4).2
      (by norm_num [createDoubleFBO, createFBO])⟩

lemma curlPass_zero (tx ty : ℚ) (V : VField) (hV : ∀ uv, V uv = (0, 0)) :
    ∀ uv, curlPass tx ty V uv = 0 := by
  intro uv
  simp [curlPass, hV]

lemma vorticityPass_zero (sqrtQ : ℚ → ℚ) (curlStrength dt tx ty : ℚ)
    (V : VField) (Cf : SField) (hV : ∀ uv, V uv = (0, 0))
    (hC : ∀ uv, Cf uv = 0) :
    ∀ uv, vorticityPass sqrtQ curlStrength dt tx ty V Cf uv = (0, 0) := by
  intro uv
  norm_num [vorticityPass, vortForce, hV, hC]

lemma divergencePass_zero (tx ty : ℚ) (V : VField)
    (hV : ∀ uv, V uv = (0, 0)) :
    ∀ uv, divergencePass tx ty V uv = 0 := by
  intro uv
  simp [divergencePass, hV]

lemma clearPass_zero (value : ℚ) (P : SField) (hP : ∀ uv, P uv = 0) :
    ∀ uv, clearPass value P uv = 0 := by
  intro uv
  simp [clearPass, hP]

lemma jacobiPass_zero (tx ty : ℚ) (P D : SField) (hP : ∀ uv, P uv = 0)
    (hD : ∀ uv, D uv = 0) :
    ∀ uv, jacobiPass tx ty P D uv = 0 := by
  intro uv
  simp [jacobiPass, hP, hD]

lemma jacobiIter_zero (tx ty : ℚ) (D : SField) (hD : ∀ uv, D uv = 0) :
    ∀ (n : ℕ) (P : SField), (∀ uv, P uv = 0) →
      ∀ uv, jacobiIter tx ty D n P uv = 0 := by
  intro n
  induction n with
  | zero =>
    intro P hP uv
    simpa [jacobiIter] using hP uv
  | succ k ih =>
    intro P hP uv
    simpa [jacobiIter] using ih _ (jacobiPass_zero tx ty P D hP hD) uv

/-- C1: from the `CONFIG` configuration (SIM_RESOLUTION 128,
DYE_RESOLUTION 1440) and freshly initialized all-zero fields with no
splat injected, one `step` with `dt = 0.0166` leaves the divergence,
curl and pressure fields exactly zero, for any texel size and any GLSL
`sqrt` implementation. -/
theorem step_zero_fields (sqrtQ : ℚ → ℚ) (tx ty : ℚ) (uv : Vec2) :
    (step sqrtQ CONFIG tx ty 0.0166 zeroState).divergence uv = 0 ∧
    (step sqrtQ CONFIG tx ty 0.0166 zeroState).curl uv = 0 ∧
    (step sqrtQ CONFIG tx ty 0.0166 zeroState).pressure uv = 0 := by
  have hV : ∀ p, zeroState.velocity p = (0, 0) := fun _ => rfl
  have hC := curlPass_zero tx ty zeroState.velocity hV
  have hvel1 := vorticityPass_zero sqrtQ CONFIG.CURL 0.0166 tx ty
    zeroState.velocity (curlPass tx ty zeroState.velocity) hV hC
  have hdiv := divergencePass_zero tx ty _ hvel1
  have hp0 := clearPass_zero CONFIG.PRESSURE zeroState.pressure (fun _ => rfl)
  have hp1 := jacobiIter_zero tx ty _ hdiv CONFIG.PRESSURE_ITERATIONS _ hp0
  exact ⟨hdiv uv, hC uv, hp1 uv⟩

/-- C4: whatever the (finite, rational) curl field, velocity field,
`dt` and GLSL `sqrt` implementation, each velocity component written by
the vorticity-confinement pass lies within `[-1000, 1000]`, and — since
`sqrt` of the squared force norm is nonnegative — the normalization
denominator `length(force) + 0.0001` is nonzero. -/
theorem vorticityPass_bounded (sqrtQ : ℚ → ℚ) (curlStrength dt tx ty : ℚ)
    (V : VField) (Cf : SField) (uv : Vec2)
    (hs : ∀ x, 0 ≤ sqrtQ x) :
    -1000 ≤ (vorticityPass sqrtQ curlStrength dt tx ty V Cf uv).1 ∧
    (vorticityPass sqrtQ curlStrength dt tx ty V Cf uv).1 ≤ 1000 ∧
    -1000 ≤ (vorticityPass sqrtQ curlStrength dt tx ty V Cf uv).2 ∧
    (vorticityPass sqrtQ curlStrength dt tx ty V Cf uv).2 ≤ 1000 ∧
    sqrtQ ((vortForce tx ty Cf uv).1 ^ 2 + (vortForce tx ty Cf uv).2 ^ 2)
      + 0.0001 ≠ 0 := by
  refine ⟨?_, ?_, ?_, ?_, ?_⟩
  · exact le_min (le_max_right _ _) (by norm_num)
  · exact min_le_right _ _
  · exact le_min (le_max_right _ _) (by norm_num)
  · exact min_le_right _ _
  · have h := hs ((vortForce tx ty Cf uv).1 ^ 2 + (vortForce tx ty Cf uv).2 ^ 2)
    intro hc
    rw [← hc] at h
    nlinarith [h]

/-- Witness for C4 at concrete fields and a concrete `sqrt` model. -/
theorem vorticityPass_bounded_witness :
    (∀ x : ℚ, 0 ≤ (fun _ => (0 : ℚ)) x) ∧
    (-1000 ≤ (vorticityPass (fun _ => 0) 5 1 1 1 (fun _ => (7, -3))
        (fun _ => 2) (0, 0)).1 ∧
      (vorticityPass (fun _ => 0) 5 1 1 1 (fun _ => (7, -3))
        (fun _ => 2) (0, 0)).1 ≤ 1000 ∧
      -1000 ≤ (vorticityPass (fun _ => 0) 5 1 1 1 (fun _ => (7, -3))
        (fun _ => 2) (0, 0)).2 ∧
      (vorticityPass (fun _ => 0) 5 1 1 1 (fun _ => (7, -3))
        (fun _ => 2) (0, 0)).2 ≤ 1000 ∧
      (fun _ => (0 : ℚ)) ((vortForce 1 1 (fun _ => 2) (0, 0)).1 ^ 2
          + (vortForce 1 1 (fun _ => 2) (0, 0)).2 ^ 2) + 0.0001 ≠ 0) :=
  ⟨fun _ => le_refl 0,
   vorticityPass_bounded (fun _ => 0) 5 1 1 1 (fun _ => (7, -3))
     (fun _ => 2) (0, 0) (fun _ => le_refl 0)⟩

lemma setKeywords_idem (m : Material) (ks : List String) :
    setKeywords (setKeywords m ks) ks = setKeywords m ks := by
  unfold setKeywords
  cases hp : m.programs (hashKeywords ks) with
  | some p =>
    by_cases ha : m.activeProgram = some p
    · simp [hp, ha]
    · simp [hp, ha]
  | none =>
    by_cases ha : m.activeProgram = some m.nextProgId
    · simp [hp, ha]
    · simp [hp, ha]

/-- C8: the keyword hash is a deterministic function of the keyword
list, and a repeated `setKeywords` call with the same list changes
nothing — it finds the cached program, compiles and links nothing new
(the compile count is unchanged), and since the resolved program is
already active it returns without touching the memoized uniform
table. -/
theorem setKeywords_stable (m : Material) (ks ks2 : List String)
    (hk : ks = ks2) :
    hashKeywords ks = hashKeywords ks2 ∧
    setKeywords (setKeywords m ks) ks2 = setKeywords m ks ∧
    (setKeywords (setKeywords m ks) ks2).compileCount
      = (setKeywords m ks).compileCount ∧
    (setKeywords (setKeywords m ks) ks2).uniformsFor
      = (setKeywords m ks).uniformsFor := by
  subst hk
  refine ⟨rfl, setKeywords_idem m ks, ?_, ?_⟩
  · rw [setKeywords_idem m ks]
  · rw [setKeywords_idem m ks]

/-- Witness for C8 on a fresh material and the SHADING keyword list. -/
theorem setKeywords_stable_witness :
    (["SHADING"] : List String) = ["SHADING"] ∧
    (hashKeywords ["SHADING"] = hashKeywords ["SHADING"] ∧
      setKeywords (setKeywords Material.init ["SHADING"]) ["SHADING"]
        = setKeywords Material.init ["SHADING"] ∧
      (setKeywords (setKeywords Material.init ["SHADING"]) ["SHADING"]).compileCount
        = (setKeywords Material.init ["SHADING"]).compileCount ∧
      (setKeywords (setKeywords Material.init ["SHADING"]) ["SHADING"]).uniformsFor
        = (setKeywords Material.init ["SHADING"]).uniformsFor) :=
  ⟨rfl, setKeywords_stable Material.init ["SHADING"] ["SHADING"] rfl⟩

/-- C9: the pipeline `HSVtoRGB` followed by the per-channel darkening
by `0.15` is deterministic — two runs from the same internal timer state
(hence the same hue, saturation `0.4` and value `0.2`) yield the
identical color triple. -/
theorem generateColor_deterministic (sinQ : ℚ → ℚ) (piQ t1 t2 : ℚ)
    (ht : t1 = t2) :
    generateColor sinQ piQ CONFIG t1 = generateColor sinQ piQ CONFIG t2 := by
  rw [ht]

/-- Witness for C9 at a concrete timer state. -/
theorem generateColor_deterministic_witness :
    (1 / 2 : ℚ) = 1 / 2 ∧
    generateColor (fun _ => 0) 3 CONFIG (1 / 2)
      = generateColor (fun _ => 0) 3 CONFIG (1 / 2) :=
  ⟨rfl, generateColor_deterministic (fun _ => 0) 3 (1 / 2) (1 / 2) rfl⟩

lemma HSVtoRGB_floor_two (h s v : ℚ) (hf : ⌊h * 6⌋ = 2) :
    HSVtoRGB h s v
      = some ⟨v * (1 - s), v, v * (1 - (1 - (h * 6 - 2)) * s)⟩ := by
  have ht : Int.tmod (2 : ℤ) 6 = 2 := by decide
  simp only [HSVtoRGB, hf, ht]
  norm_num

lemma HSVtoRGB_floor_three (h s v : ℚ) (hf : ⌊h * 6⌋ = 3) :
    HSVtoRGB h s v
      = some ⟨v * (1 - s), v * (1 - (h * 6 - 3) * s), v⟩ := by
  have ht : Int.tmod (3 : ℤ) 6 = 3 := by decide
  simp only [HSVtoRGB, hf, ht]
  norm_num

/-- C10: for every timer state, the hue `0.55 + 0.1 * sin(...)` lies in
`[0.45, 0.65]`, so `floor(h * 6)` is 2 or 3 and the undefined default
branch of the `HSVtoRGB` switch is unreachable; the returned triple is
always defined with each darkened channel in `[0, 0.03]`.  `sinQ`
models the platform's `Math.sin`, whose values lie in `[-1, 1]`. -/
theorem generateColor_in_range (sinQ : ℚ → ℚ) (piQ t : ℚ)
    (hs : ∀ x, -1 ≤ sinQ x ∧ sinQ x ≤ 1) :
    (0.45 ≤ hueOf sinQ piQ (stepColorTimer CONFIG t) ∧
      hueOf sinQ piQ (stepColorTimer CONFIG t) ≤ 0.65) ∧
    (⌊hueOf sinQ piQ (stepColorTimer CONFIG t) * 6⌋ = 2 ∨
      ⌊hueOf sinQ piQ (stepColorTimer CONFIG t) * 6⌋ = 3) ∧
    ∃ c : RGB, (generateColor sinQ piQ CONFIG t).2 = some c ∧
      0 ≤ c.r ∧ c.r ≤ 0.03 ∧ 0 ≤ c.g ∧ c.g ≤ 0.03 ∧
      0 ≤ c.b ∧ c.b ≤ 0.03 := by
  obtain ⟨hs1, hs2⟩ := hs (stepColorTimer CONFIG t * piQ * 2)
  set hq := hueOf sinQ piQ (stepColorTimer CONFIG t) with hhq
  have hb1 : (0.45 : ℚ) ≤ hq := by
    rw [hhq]; unfold hueOf; linarith
  have hb2 : hq ≤ 0.65 := by
    rw [hhq]; unfold hueOf; linarith
  have hfl2 : (2 : ℤ) ≤ ⌊hq * 6⌋ := by
    apply Int.le_floor.mpr; push_cast; linarith
  have hfl3 : ⌊hq * 6⌋ ≤ 3 := by
    have h4 : ⌊hq * 6⌋ < 4 := by
      apply Int.floor_lt.mpr; push_cast; linarith
    omega
  have hcase : ⌊hq * 6⌋ = 2 ∨ ⌊hq * 6⌋ = 3 := by omega
  refine ⟨⟨hb1, hb2⟩, hcase, ?_⟩
  have hf0 : (⌊hq * 6⌋ : ℚ) ≤ hq * 6 := Int.floor_le (hq * 6)
  have hf1 : hq * 6 < (⌊hq * 6⌋ : ℚ) + 1 := Int.lt_floor_add_one (hq * 6)
  rcases hcase with h2 | h3
  · have hH := HSVtoRGB_floor_two hq 0.4 0.2 h2
    have hgc : (generateColor sinQ piQ CONFIG t).2
        = some ⟨0.2 * (1 - 0.4) * 0.15, 0.2 * 0.15,
            0.2 * (1 - (1 - (hq * 6 - 2)) * 0.4) * 0.15⟩ := by
      simp only [generateColor, ← hhq, hH, Option.map_some']
    have hfr0 : (0 : ℚ) ≤ hq * 6 - 2 := by
      rw [h2] at hf0; push_cast at hf0; linarith
    have hfr1 : hq * 6 - 2 < 1 := by
      rw [h2] at hf1; push_cast at hf1; linarith
    refine ⟨_, hgc, ?_, ?_, ?_, ?_, ?_, ?_⟩ <;> norm_num <;> linarith
  · have hH := HSVtoRGB_floor_three hq 0.4 0.2 h3
    have hgc : (generateColor sinQ piQ CONFIG t).2
        = some ⟨0.2 * (1 - 0.4) * 0.15, 0.2 * (1 - (hq * 6 - 3) * 0.4) * 0.15,
            0.2 * 0.15⟩ := by
      simp only [generateColor, ← hhq, hH, Option.map_some']
    have hfr0 : (0 : ℚ) ≤ hq * 6 - 3 := by
      rw [h3] at hf0; push_cast at hf0; linarith
    have hfr1 : hq * 6 - 3 < 1 := by
      rw [h3] at hf1; push_cast at hf1; linarith
    refine ⟨_, hgc, ?_, ?_, ?_, ?_, ?_, ?_⟩ <;> norm_num <;> linarith

/-- Witness for C10 with a bounded concrete `sin` model. -/
theorem generateColor_in_range_witness :
    (∀ x : ℚ, -1 ≤ (fun _ => (0 : ℚ)) x ∧ (fun _ => (0 : ℚ)) x ≤ 1) ∧
    ((0.45 ≤ hueOf (fun _ => 0) 3 (stepColorTimer CONFIG 0) ∧
        hueOf (fun _ => 0) 3 (stepColorTimer CONFIG 0) ≤ 0.65) ∧
      (⌊hueOf (fun _ => 0) 3 (stepColorTimer CONFIG 0) * 6⌋ = 2 ∨
        ⌊hueOf (fun _ => 0) 3 (stepColorTimer CONFIG 0) * 6⌋ = 3) ∧
      ∃ c : RGB, (generateColor (fun _ => 0) 3 CONFIG 0).2 = some c ∧
        0 ≤ c.r ∧ c.r ≤ 0.03 ∧ 0 ≤ c.g ∧ c.g ≤ 0.03 ∧
        0 ≤ c.b ∧ c.b ≤ 0.03) :=
  ⟨fun _ => by norm_num,
   generateColor_in_range (fun _ => 0) 3 0 (fun _ => by norm_num)⟩

end Fluid
